import Mathlib

/-!
Shallow embedding of `jpsvis2visualizer` (src/jpsvis2visualizer/writer.py and
src/jpsvis2visualizer/main.py), with theorems checking the repository's
specification claims against it.

The sqlite store is modelled relationally: each table is a list of rows in
insertion order.  Python's builtin `hash` (used by the writer as the geometry
content hash) is salted per process, so every embedded function takes the
process's string-hash function `pyHash : String → Int` as an explicit
parameter; one process means one `pyHash`.  Numeric values are modelled as
exact rationals; frames and ids as integers.
-/

namespace Jps

/-- One row of the pandas dataframe inside pedpy's `TrajectoryData`:
columns `frame`, `id`, `x`, `y`. -/
structure Row where
  frame : Int
  id : Int
  x : ℚ
  y : ℚ
deriving DecidableEq

/-- The dataframe held by `TrajectoryData.data`.  `zeroCol` models the
optional `zero` column the writer adds in place (`data["zero"] = 0`,
writer.py line 111): `none` when absent, `some v` for a column whose value
is `v` in every row (the code only ever assigns the scalar 0). -/
structure DataFrame where
  rows : List Row
  zeroCol : Option ℚ
deriving DecidableEq

/-- Modelled from the spec: pedpy's `TrajectoryData` collaborator (spec §3),
exposing the dataframe and the frame rate; `frame_range` and `bounds` are
properties computed from the current dataframe (see below). -/
structure TrajectoryData where
  data : DataFrame
  frame_rate : ℚ
deriving DecidableEq

/-- Minimum of an integer column (pandas `.min()`): `none` on an empty
column. -/
def colMinI : List Int → Option Int
  | [] => none
  | x :: xs => some (xs.foldl min x)

/-- Maximum of an integer column (pandas `.max()`). -/
def colMaxI : List Int → Option Int
  | [] => none
  | x :: xs => some (xs.foldl max x)

/-- Minimum of a rational column. -/
def colMinQ : List ℚ → Option ℚ
  | [] => none
  | x :: xs => some (xs.foldl min x)

/-- Maximum of a rational column. -/
def colMaxQ : List ℚ → Option ℚ
  | [] => none
  | x :: xs => some (xs.foldl max x)

/-- Modelled from the spec: pedpy's `TrajectoryData.frame_range` property,
"the minimum and maximum frame numbers" (spec §3), computed live from the
current dataframe's `frame` column (the default 0 is never reached on the
non-empty datasets the tool processes). -/
def frame_range (d : DataFrame) : Int × Int :=
  ((colMinI (d.rows.map Row.frame)).getD 0, (colMaxI (d.rows.map Row.frame)).getD 0)

/-- A bounding box `(xmin, ymin, xmax, ymax)` in shapely's order. -/
structure Bounds where
  xmin : ℚ
  ymin : ℚ
  xmax : ℚ
  ymax : ℚ
deriving DecidableEq

/-- Modelled from the spec: pedpy's `TrajectoryData.bounds` property, the
bounding box "(xmin, ymin, xmax, ymax) floats, covering all rows" (spec §3),
computed from the dataframe's positions. -/
def dfBounds (d : DataFrame) : Bounds :=
  ⟨(colMinQ (d.rows.map Row.x)).getD 0, (colMinQ (d.rows.map Row.y)).getD 0,
   (colMaxQ (d.rows.map Row.x)).getD 0, (colMaxQ (d.rows.map Row.y)).getD 0⟩

/-- A shapely polygon, reduced to its exterior ring of coordinates (the only
part the writer observes, through `to_wkt` and `.bounds`). -/
structure Polygon where
  exterior : List (ℚ × ℚ)
deriving DecidableEq

/-- shapely's `box(xmin, ymin, xmax, ymax)`: the counter-clockwise
rectangle ring starting at `(xmax, ymin)`. -/
def box (xmin ymin xmax ymax : ℚ) : Polygon :=
  ⟨[(xmax, ymin), (xmax, ymax), (xmin, ymax), (xmin, ymin), (xmax, ymin)]⟩

/-- shapely's `to_wkt(polygon, rounding_precision=-1)`: the WKT text of the
polygon at full precision (the exact coordinate rendering is irrelevant to
every claim; only that the text is a function of the polygon matters). -/
def to_wkt (p : Polygon) : String :=
  "POLYGON ((" ++
    String.intercalate ", " (p.exterior.map (fun c => toString c.1 ++ " " ++ toString c.2)) ++
    "))"

/-- shapely's `polygon.bounds`: `(minx, miny, maxx, maxy)` over the
exterior ring. -/
def polyBounds (p : Polygon) : Bounds :=
  ⟨(colMinQ (p.exterior.map Prod.fst)).getD 0, (colMinQ (p.exterior.map Prod.snd)).getD 0,
   (colMaxQ (p.exterior.map Prod.fst)).getD 0, (colMaxQ (p.exterior.map Prod.snd)).getD 0⟩

/-- Modelled from the spec: pedpy's `WalkableArea` collaborator (spec §3),
a polygon with a WKT text and bounds. -/
structure WalkableArea where
  polygon : Polygon
deriving DecidableEq

/-- `WalkableArea.bounds` (the underlying polygon's bounding box). -/
def WalkableArea.bounds (w : WalkableArea) : Bounds := polyBounds w.polygon

/-- One row of the `trajectory_data` table. -/
structure DBRow where
  frame : Int
  id : Int
  pos_x : ℚ
  pos_y : ℚ
  ori_x : ℚ
  ori_y : ℚ
deriving DecidableEq

/-- The sqlite store: the four tables of the schema, each as its rows in
insertion order.  `geometry` rows are `(hash, wkt)`, `frame_data` rows are
`(frame, geometry_hash)`, `metadata` rows are `(key, value)` with `key`
the primary key. -/
structure Store where
  trajectory_data : List DBRow
  metadata : List (String × String)
  geometry : List (Int × String)
  frame_data : List (Int × Int)
deriving DecidableEq

/-- A store with no tables yet (a freshly created database file). -/
def emptyStore : Store := ⟨[], [], [], []⟩

/-- Text sqlite stores for an integer bound to a TEXT column. -/
def intText (i : Int) : String := toString i

/-- Text sqlite stores for a numeric value bound to a TEXT column
(modelled; no claim inspects the rendering). -/
def ratText (q : ℚ) : String := toString q

/-- `INSERT OR REPLACE INTO metadata(key, value)`: the conflicting row (same
primary key) is deleted and the new row inserted. -/
def upsertMeta (st : Store) (k v : String) : Store :=
  { st with metadata := st.metadata.filter (fun kv => kv.1 ≠ k) ++ [(k, v)] }

/-- `INSERT OR IGNORE INTO geometry(hash, wkt)` under the unique index on
`hash`: a no-op when the hash is already present. -/
def insertOrIgnoreGeometry (st : Store) (h : Int) (w : String) : Store :=
  if st.geometry.any (fun g => decide (g.1 = h)) then st
  else { st with geometry := st.geometry ++ [(h, w)] }

/-- `DATABASE_VERSION` (writer.py line 13), the schema version constant. -/
def DATABASE_VERSION : Int := 2

/-- Result of one sqlite transaction: the store observable after COMMIT or
ROLLBACK, and the error message of the RuntimeError raised, if any. -/
structure TxResult where
  store : Store
  error : Option String
deriving DecidableEq

/-- `_setup_sqlite_database` (writer.py lines 49-96).  Inside one
BEGIN..COMMIT it drops and recreates the four tables, creates the two
indexes (encoded in the insert semantics, not as data), inserts the two
metadata rows, and inserts the geometry row `(hash(wkt), wkt)` of the
walkable area.  `fail` models a `sqlite3.Error` anywhere inside the
transaction: everything is rolled back (the store is returned unchanged)
and a RuntimeError wrapping the cause is raised. -/
def setup_sqlite_database (pyHash : String → Int) (fail : Bool) (st : Store)
    (trajectory_data : TrajectoryData) (walkable_area : WalkableArea) : TxResult :=
  if fail then ⟨st, some "Error creating database"⟩ else
  let fps := trajectory_data.frame_rate
  let geometry := to_wkt walkable_area.polygon
  let s := { st with trajectory_data := [] }
  let s := { s with metadata := [("version", intText DATABASE_VERSION), ("fps", ratText fps)] }
  let s := { s with geometry := [(pyHash geometry, geometry)] }
  let s := { s with frame_data := [] }
  ⟨s, none⟩

/-- Result of `_write_sqlite_database`: the store after COMMIT or ROLLBACK,
the caller's dataframe after the call (the pandas mutations of lines
111-112 happen in place and are not part of the sqlite transaction), and
the error raised, if any. -/
structure WriteResult where
  store : Store
  data : DataFrame
  error : Option String
deriving DecidableEq

/-- `_write_sqlite_database` (writer.py lines 99-151).  Reads `min_frame`
from `frame_range` (line 107), adds the `zero` column and rebases the
`frame` column in place (lines 111-112), bulk-inserts the rows, inserts
the geometry with OR IGNORE, reads `frame_range` again (line 129, now over
the rebased dataframe) to enumerate `frame_data`, and upserts the four
bounds metadata rows.  `fail` models a `sqlite3.Error` inside the
transaction: the store is rolled back unchanged, the pandas mutations
remain, and a RuntimeError wrapping the cause is raised. -/
def write_sqlite_database (pyHash : String → Int) (fail : Bool) (st : Store)
    (data : DataFrame) (walkable_area : WalkableArea) : WriteResult :=
  let min_frame := (frame_range data).1
  let data := { data with zeroCol := some 0 }
  let data := { data with rows := data.rows.map (fun r => { r with frame := r.frame - min_frame }) }
  if fail then ⟨st, data, some "Error creating database"⟩ else
  let traj_data := data.rows.map (fun r => DBRow.mk r.frame r.id r.x r.y (data.zeroCol.getD 0) (data.zeroCol.getD 0))
  let s := { st with trajectory_data := st.trajectory_data ++ traj_data }
  let geo_wkt := to_wkt walkable_area.polygon
  let geo_hash := pyHash geo_wkt
  let s := insertOrIgnoreGeometry s geo_hash geo_wkt
  let fr := frame_range data
  let frames := (List.range (fr.2 + 1 - fr.1).toNat).map (fun i => fr.1 + Int.ofNat i)
  let s := { s with frame_data := s.frame_data ++ frames.map (fun f => (f, geo_hash)) }
  let b := walkable_area.bounds
  let s := upsertMeta s "xmin" (ratText b.xmin)
  let s := upsertMeta s "xmax" (ratText b.xmax)
  let s := upsertMeta s "ymin" (ratText b.ymin)
  let s := upsertMeta s "ymax" (ratText b.ymax)
  ⟨s, data, none⟩

/-- `list(range(lo, hi + 1))`: the integers from `lo` to `hi` inclusive. -/
def intRange (lo hi : Int) : List Int :=
  (List.range (hi + 1 - lo).toNat).map (fun i => lo + Int.ofNat i)

/-- Lines 34-39 of `write_trajectory_to_sqlite`: when no walkable area is
given, fall back to the dataset's bounding box padded by 1 on every side
and log a warning naming the fallback polygon; otherwise keep the given
area and log nothing. -/
def resolveWalkableArea (trajectory_data : TrajectoryData) (walkable_area : Option WalkableArea) :
    WalkableArea × List String :=
  match walkable_area with
  | some w => (w, [])
  | none =>
    let b := dfBounds trajectory_data.data
    let w : WalkableArea := ⟨box (b.xmin - 1) (b.ymin - 1) (b.xmax + 1) (b.ymax + 1)⟩
    (w, ["No walkable area provided. Use bounding box instead: " ++ to_wkt w.polygon])

/-- Observable outcome of one conversion job against one store. -/
structure JobResult where
  store : Store
  data : DataFrame
  walkable_area : WalkableArea
  logs : List String
  error : Option String
deriving DecidableEq

/-- `write_trajectory_to_sqlite` (writer.py lines 17-46): resolve the
walkable area (with fallback and warning), run the schema setup, then,
when it did not raise, the data writer, against the same store.
`setupFail`/`writeFail` model a storage failure inside the respective
transaction. -/
def write_trajectory_to_sqlite (pyHash : String → Int) (setupFail writeFail : Bool)
    (trajectory_data : TrajectoryData) (walkable_area : Option WalkableArea) (st : Store) :
    JobResult :=
  let resolved := resolveWalkableArea trajectory_data walkable_area
  let wa := resolved.1
  let logs := resolved.2
  let setup := setup_sqlite_database pyHash setupFail st trajectory_data wa
  match setup.error with
  | some e => ⟨setup.store, trajectory_data.data, wa, logs, some e⟩
  | none =>
    let wr := write_sqlite_database pyHash writeFail setup.store trajectory_data.data wa
    ⟨wr.store, wr.data, wa, logs, wr.error⟩

/-- A successful conversion job: both transactions run without a storage
failure (shorthand used by the theorems below). -/
def runJob (pyHash : String → Int) (trajectory_data : TrajectoryData)
    (walkable_area : Option WalkableArea) (st : Store) : JobResult :=
  write_trajectory_to_sqlite pyHash false false trajectory_data walkable_area st

/-! The CLI orchestration layer, `main.py`.  Filesystem interaction is
abstracted into oracles (`glob`, `readLine`) and an event trace recording
every I/O action the code performs, in order. -/

/-- One I/O action of `convert_files` (main.py): expanding the file
pattern, reading the first line of the geometry file, loading a trajectory
file, or writing an output store. -/
inductive Effect where
  | globPattern (pattern : String)
  | readFile (path : String)
  | loadTrajectory (file : String)
  | writeStore (file : String)
deriving DecidableEq

/-- Python truthiness of an `Optional[str]`: `None` and the empty string
are falsy. -/
def truthyStr : Option String → Bool
  | none => false
  | some s => s ≠ ""

/-- `_validate_geometry_options` (main.py lines 24-45).  Raises
`typer.BadParameter` when both a (truthy) geometry string and a geometry
file are given; otherwise returns the WKT source to use (`readLine`
models opening the geometry file and reading its stripped first line)
together with the I/O performed.  An `Optional[Path]` is truthy exactly
when it is not `None`. -/
def validate_geometry_options (readLine : String → String)
    (geometry geometry_file : Option String) :
    Except String (Option String × List Effect) :=
  if truthyStr geometry && geometry_file.isSome then
    Except.error "Cannot use both --geometry and --geometry_file at the same time."
  else if truthyStr geometry then Except.ok (geometry, [])
  else
    match geometry_file with
    | some p => Except.ok (some (readLine p), [Effect.readFile p])
    | none => Except.ok (none, [])

/-- `_validate_output_file` (main.py lines 48-52): raises
`typer.BadParameter` whenever the pattern matched more than one file —
regardless of whether an output file was supplied (the function never
looks at the output option). -/
def validate_output_file (number_files : Nat) : Except String Unit :=
  if number_files > 1 then
    Except.error "Cannot use both --output-file if the file pattern matches multiple files"
  else Except.ok ()

/-- `_auto_generate_output` (main.py lines 55-64):
`input_path.with_suffix(".sqlite")`, i.e. the input path with its last
extension replaced by `.sqlite`. -/
def auto_generate_output (p : String) : String :=
  let parts := p.splitOn "."
  if parts.length ≤ 1 then p ++ ".sqlite"
  else String.intercalate "." parts.dropLast ++ ".sqlite"

/-- `convert_files` (main.py lines 67-107): validate the geometry options,
glob the pattern, validate the output option against the match count, then
convert each matched file to `output_file or _auto_generate_output(file)`.
Returns the outcome together with the full trace of I/O performed before
the outcome (an error reports the I/O done up to the raise). -/
def convert_files (glob : String → List String) (readLine : String → String)
    (file_pattern : String) (output_file geometry geometry_file : Option String) :
    Except String Unit × List Effect :=
  match validate_geometry_options readLine geometry geometry_file with
  | Except.error e => (Except.error e, [])
  | Except.ok va =>
    let files := glob file_pattern
    let ev := va.2 ++ [Effect.globPattern file_pattern]
    if files.length = 0 then (Except.ok (), ev)
    else
      match validate_output_file files.length with
      | Except.error e => (Except.error e, ev)
      | Except.ok _ =>
        let ev := files.foldl (fun acc file =>
          let output := match output_file with
            | some o => o
            | none => auto_generate_output file
          acc ++ [Effect.loadTrajectory file, Effect.writeStore output]) ev
        (Except.ok (), ev)

/-! Helper lemmas about column minima/maxima and integer ranges. -/

lemma foldl_min_sub (c : Int) :
    ∀ (l : List Int) (a : Int), (l.map (fun x => x - c)).foldl min (a - c) = l.foldl min a - c := by
  intro l
  induction l with
  | nil => intro a; rfl
  | cons y ys ih =>
    intro a
    simp only [List.map_cons, List.foldl_cons]
    rw [min_sub_sub_right, ih]

lemma foldl_max_sub (c : Int) :
    ∀ (l : List Int) (a : Int), (l.map (fun x => x - c)).foldl max (a - c) = l.foldl max a - c := by
  intro l
  induction l with
  | nil => intro a; rfl
  | cons y ys ih =>
    intro a
    simp only [List.map_cons, List.foldl_cons]
    rw [max_sub_sub_right, ih]

lemma colMinI_map_sub (l : List Int) (c : Int) :
    colMinI (l.map (fun x => x - c)) = (colMinI l).map (fun x => x - c) := by
  cases l with
  | nil => rfl
  | cons x xs => simp [colMinI, foldl_min_sub]

lemma colMaxI_map_sub (l : List Int) (c : Int) :
    colMaxI (l.map (fun x => x - c)) = (colMaxI l).map (fun x => x - c) := by
  cases l with
  | nil => rfl
  | cons x xs => simp [colMaxI, foldl_max_sub]

lemma foldl_min_le (l : List Int) (a : Int) : l.foldl min a ≤ a := by
  induction l generalizing a with
  | nil => exact le_refl a
  | cons y ys ih => exact le_trans (ih (min a y)) (min_le_left a y)

lemma le_foldl_max (l : List Int) (a : Int) : a ≤ l.foldl max a := by
  induction l generalizing a with
  | nil => exact le_refl a
  | cons y ys ih => exact le_trans (le_max_left a y) (ih (max a y))

lemma colMinI_le_colMaxI {l : List Int} {m M : Int}
    (hm : colMinI l = some m) (hM : colMaxI l = some M) : m ≤ M := by
  cases l with
  | nil => exact absurd hm (by simp [colMinI])
  | cons x xs =>
    simp only [colMinI, colMaxI, Option.some.injEq] at hm hM
    exact hm ▸ hM ▸ le_trans (foldl_min_le xs x) (le_foldl_max xs x)

lemma colMinI_of_ne_nil {l : List Int} (h : l ≠ []) : ∃ m, colMinI l = some m := by
  cases l with
  | nil => exact absurd rfl h
  | cons x xs => exact ⟨xs.foldl min x, rfl⟩

lemma colMaxI_of_ne_nil {l : List Int} (h : l ≠ []) : ∃ M, colMaxI l = some M := by
  cases l with
  | nil => exact absurd rfl h
  | cons x xs => exact ⟨xs.foldl max x, rfl⟩

lemma intRange_length (lo hi : Int) : (intRange lo hi).length = (hi + 1 - lo).toNat := by
  rw [intRange, List.length_map, List.length_range]

lemma intRange_nodup (lo hi : Int) : (intRange lo hi).Nodup := by
  rw [intRange]
  refine List.Nodup.map ?_ (List.nodup_range _)
  intro i j hij
  exact Int.ofNat.inj (add_left_cancel hij)

lemma frame_range_sub (d : DataFrame) {m M : Int}
    (hm : colMinI (d.rows.map Row.frame) = some m)
    (hM : colMaxI (d.rows.map Row.frame) = some M) (c : Int) (z : Option ℚ) :
    frame_range ⟨d.rows.map (fun r => { r with frame := r.frame - c }), z⟩ = (m - c, M - c) := by
  have hmap : List.map Row.frame (d.rows.map (fun r => { r with frame := r.frame - c }))
      = (d.rows.map Row.frame).map (fun x => x - c) := by
    simp only [List.map_map]
    rfl
  simp only [frame_range, hmap, colMinI_map_sub, colMaxI_map_sub, hm, hM, Option.map_some',
    Option.getD_some]

/-- The `frame_range` of the dataframe after the in-place rebase of the
`frame` column: the rebased minimum is 0 and the rebased maximum is
`max_frame - min_frame`. -/
lemma frame_range_rebase (d : DataFrame) (hne : d.rows ≠ []) (z : Option ℚ) :
    frame_range ⟨d.rows.map (fun r => { r with frame := r.frame - (frame_range d).1 }), z⟩ =
      (0, (frame_range d).2 - (frame_range d).1) := by
  obtain ⟨m, hm⟩ := colMinI_of_ne_nil (l := d.rows.map Row.frame) (by simpa using hne)
  obtain ⟨M, hM⟩ := colMaxI_of_ne_nil (l := d.rows.map Row.frame) (by simpa using hne)
  have h1 : (frame_range d).1 = m := by simp [frame_range, hm]
  have h2 : (frame_range d).2 = M := by simp [frame_range, hM]
  rw [h1, h2, frame_range_sub d hm hM m z]
  simp

/-- Full characterization of a successful conversion job run with an
explicitly supplied walkable area. -/
lemma runJob_some (pyHash : String → Int) (td : TrajectoryData) (wa : WalkableArea) (st : Store) :
    runJob pyHash td (some wa) st =
      { store :=
          { trajectory_data := td.data.rows.map (fun r =>
              DBRow.mk (r.frame - (frame_range td.data).1) r.id r.x r.y 0 0),
            metadata := [("version", intText DATABASE_VERSION), ("fps", ratText td.frame_rate),
              ("xmin", ratText wa.bounds.xmin), ("xmax", ratText wa.bounds.xmax),
              ("ymin", ratText wa.bounds.ymin), ("ymax", ratText wa.bounds.ymax)],
            geometry := [(pyHash (to_wkt wa.polygon), to_wkt wa.polygon)],
            frame_data :=
              (intRange
                (frame_range ⟨td.data.rows.map (fun r =>
                  { r with frame := r.frame - (frame_range td.data).1 }), some 0⟩).1
                (frame_range ⟨td.data.rows.map (fun r =>
                  { r with frame := r.frame - (frame_range td.data).1 }), some 0⟩).2).map
                (fun f => (f, pyHash (to_wkt wa.polygon))) },
        data := ⟨td.data.rows.map (fun r =>
          { r with frame := r.frame - (frame_range td.data).1 }), some 0⟩,
        walkable_area := wa,
        logs := [],
        error := none } := by
  simp [runJob, write_trajectory_to_sqlite, resolveWalkableArea, setup_sqlite_database,
    write_sqlite_database, insertOrIgnoreGeometry, upsertMeta, intRange, WalkableArea.bounds]

/-- A successful conversion job with no walkable area supplied equals the
job run with the padded-bounding-box fallback, plus the warning naming the
fallback polygon. -/
lemma runJob_none (pyHash : String → Int) (td : TrajectoryData) (st : Store) :
    runJob pyHash td none st =
      { runJob pyHash td (some ⟨box ((dfBounds td.data).xmin - 1) ((dfBounds td.data).ymin - 1)
          ((dfBounds td.data).xmax + 1) ((dfBounds td.data).ymax + 1)⟩) st with
        logs := ["No walkable area provided. Use bounding box instead: " ++
          to_wkt (box ((dfBounds td.data).xmin - 1) ((dfBounds td.data).ymin - 1)
            ((dfBounds td.data).xmax + 1) ((dfBounds td.data).ymax + 1))] } := by
  simp [runJob, write_trajectory_to_sqlite, resolveWalkableArea, setup_sqlite_database]

/-- Example dataset used by the concrete witnesses and counterexamples:
two rows with frames 5 and 6 and frame rate 8 (the scenario of spec §8). -/
def tdEx : TrajectoryData := ⟨⟨[⟨5, 1, 0, 0⟩, ⟨6, 1, 1, 1⟩], none⟩, 8⟩

/-- Example walkable area: the square with corners (0,0) and (10,10). -/
def waEx : WalkableArea := ⟨box 0 0 10 10⟩

/-- An example per-process string-hash function. -/
def hashEx : String → Int := fun s => Int.ofNat s.length

lemma frame_range_le (d : DataFrame) (hne : d.rows ≠ []) :
    (frame_range d).1 ≤ (frame_range d).2 := by
  obtain ⟨m, hm⟩ := colMinI_of_ne_nil (l := d.rows.map Row.frame) (by simpa using hne)
  obtain ⟨M, hM⟩ := colMaxI_of_ne_nil (l := d.rows.map Row.frame) (by simpa using hne)
  simpa [frame_range, hm, hM] using colMinI_le_colMaxI hm hM

lemma frame_range_rebase_fst (d : DataFrame) (hne : d.rows ≠ []) (z : Option ℚ) :
    (frame_range ⟨d.rows.map (fun r => { r with frame := r.frame - (frame_range d).1 }), z⟩).1
      = 0 := by
  rw [frame_range_rebase d hne z]

lemma frame_range_rebase_snd (d : DataFrame) (hne : d.rows ≠ []) (z : Option ℚ) :
    (frame_range ⟨d.rows.map (fun r => { r with frame := r.frame - (frame_range d).1 }), z⟩).2
      = (frame_range d).2 - (frame_range d).1 := by
  rw [frame_range_rebase d hne z]

lemma map_pair_fst (l : List Int) (h0 : Int) :
    ((l.map (fun f => (f, h0))).map Prod.fst) = l := by
  have hcomp : (Prod.fst ∘ fun f : Int => (f, h0)) = id := rfl
  rw [List.map_map, hcomp, List.map_id]

/-- Core of the frame-data claim, for an explicitly supplied walkable
area: the `frame_data` table of a successful run is exactly one row
`(f, hash)` for each rebased frame `f` from 0 to `max_frame - min_frame`. -/
lemma frame_data_core (pyHash : String → Int) (td : TrajectoryData) (w : WalkableArea)
    (st : Store) (hne : td.data.rows ≠ []) :
    let res := runJob pyHash td (some w) st
    let mn := (frame_range td.data).1
    let mx := (frame_range td.data).2
    let h := pyHash (to_wkt res.walkable_area.polygon)
    res.error = none ∧
    res.store.frame_data = (intRange 0 (mx - mn)).map (fun f => (f, h)) ∧
    (res.store.frame_data.length : Int) = mx - mn + 1 ∧
    (res.store.frame_data.map Prod.fst).Nodup ∧
    (∀ p ∈ res.store.frame_data, p.2 = h) := by
  have hle := frame_range_le td.data hne
  rw [runJob_some, frame_range_rebase_fst td.data hne (some 0),
    frame_range_rebase_snd td.data hne (some 0)]
  refine ⟨rfl, rfl, ?_, ?_, ?_⟩
  · rw [List.length_map, intRange_length]
    omega
  · rw [map_pair_fst]
    exact intRange_nodup _ _
  · intro p hp
    simp only [List.mem_map] at hp
    obtain ⟨f, _, rfl⟩ := hp
    rfl

/-- Core of the trajectory-rows claim, for an explicitly supplied walkable
area: one `trajectory_data` row per input row, frames rebased by
`min_frame`, minimum stored frame 0, orientations 0. -/
lemma trajectory_core (pyHash : String → Int) (td : TrajectoryData) (w : WalkableArea)
    (st : Store) (hne : td.data.rows ≠ []) :
    let res := runJob pyHash td (some w) st
    let mn := (frame_range td.data).1
    res.error = none ∧
    res.store.trajectory_data =
      td.data.rows.map (fun r => DBRow.mk (r.frame - mn) r.id r.x r.y 0 0) ∧
    res.store.trajectory_data.length = td.data.rows.length ∧
    colMinI (res.store.trajectory_data.map DBRow.frame) = some 0 ∧
    (∀ r ∈ res.store.trajectory_data, r.ori_x = 0 ∧ r.ori_y = 0) := by
  obtain ⟨m, hm⟩ := colMinI_of_ne_nil (l := td.data.rows.map Row.frame) (by simpa using hne)
  have hfr1 : (frame_range td.data).1 = m := by simp [frame_range, hm]
  rw [runJob_some]
  refine ⟨rfl, rfl, ?_, ?_, ?_⟩
  · rw [List.length_map]
  · have hmap : List.map DBRow.frame (td.data.rows.map (fun r =>
        DBRow.mk (r.frame - (frame_range td.data).1) r.id r.x r.y 0 0))
        = (td.data.rows.map Row.frame).map (fun x => x - (frame_range td.data).1) := by
      simp only [List.map_map]
      rfl
    rw [hmap, colMinI_map_sub, hm, hfr1]
    simp
  · intro r hr
    simp only [List.mem_map] at hr
    obtain ⟨r0, _, rfl⟩ := hr
    exact ⟨rfl, rfl⟩

/-! The claims. -/

/-- C2 counterexample: the claim says the Schema Initializer inserts no
rows into any table other than `metadata`, but at a concrete input the
store it leaves behind has a non-empty `geometry` table (writer.py lines
81-84 insert the walkable area's hash/WKT pair during setup). -/
theorem C2_counterexample :
    (setup_sqlite_database hashEx false emptyStore tdEx waEx).store.geometry ≠ [] := by
  simp [setup_sqlite_database]

/-- C2 (amended): the Schema Initializer, given the store handle, the
trajectory data and the walkable area, atomically drops/recreates the four
tables and inserts exactly two metadata rows ("version" with the schema
version constant, "fps" with the frame rate) plus one geometry row (the
walkable area's WKT keyed by its content hash); `trajectory_data` and
`frame_data` are left empty, and on any failure every change is rolled
back and an error wrapping the cause is raised. -/
theorem C2_schema_initializer (pyHash : String → Int) (st : Store) (td : TrajectoryData)
    (wa : WalkableArea) :
    setup_sqlite_database pyHash false st td wa =
      ⟨⟨[], [("version", intText DATABASE_VERSION), ("fps", ratText td.frame_rate)],
        [(pyHash (to_wkt wa.polygon), to_wkt wa.polygon)], []⟩, none⟩ ∧
    setup_sqlite_database pyHash true st td wa = ⟨st, some "Error creating database"⟩ :=
  ⟨rfl, rfl⟩

/-- C4 counterexample: the claim says a storage failure during the Data
Writer's transaction leaves a store with no geometry rows, but at a
concrete input the rolled-back store still holds the geometry row the
Initializer committed. -/
theorem C4_counterexample :
    (write_trajectory_to_sqlite hashEx false true tdEx (some waEx) emptyStore).error ≠ none ∧
    (write_trajectory_to_sqlite hashEx false true tdEx (some waEx) emptyStore).store.geometry
      ≠ [] := by
  constructor <;>
    simp [write_trajectory_to_sqlite, resolveWalkableArea, setup_sqlite_database,
      write_sqlite_database]

/-- C4 (amended): on any storage failure inside the Data Writer's
transaction all of its changes are rolled back and a RuntimeError wrapping
the cause is raised, leaving the store exactly as the Initializer left it:
no trajectory or frame_data rows, metadata containing only the version and
fps rows, and exactly the one geometry row the Initializer inserted. -/
theorem C4_writer_rollback (pyHash : String → Int) (td : TrajectoryData)
    (wa : Option WalkableArea) (st : Store) :
    let res := write_trajectory_to_sqlite pyHash false true td wa st
    let wkt := to_wkt (resolveWalkableArea td wa).1.polygon
    res.error = some "Error creating database" ∧
    res.store = (setup_sqlite_database pyHash false st td (resolveWalkableArea td wa).1).store ∧
    res.store.trajectory_data = [] ∧
    res.store.frame_data = [] ∧
    res.store.geometry = [(pyHash wkt, wkt)] ∧
    res.store.metadata = [("version", intText DATABASE_VERSION), ("fps", ratText td.frame_rate)] := by
  simp [write_trajectory_to_sqlite, setup_sqlite_database, write_sqlite_database]

/-- C6 counterexample: the claim says the input dataset is read-only to the
core, but after a successful run at a concrete input the caller's dataframe
has changed (frames rebased in place, `zero` column added). -/
theorem C6_counterexample :
    (runJob hashEx tdEx (some waEx) emptyStore).data ≠ tdEx.data := by
  rw [runJob_some]
  simp [tdEx]

/-- C6 (amended): the conversion mutates the caller's dataset in place:
after a run that reaches the Data Writer, every `frame` value has been
decreased by `min_frame` and a `zero` column has been added; row count,
ids and positions are unchanged (they are carried over by the same map). -/
theorem C6_input_mutation (pyHash : String → Int) (td : TrajectoryData)
    (wa : Option WalkableArea) (st : Store) :
    (runJob pyHash td wa st).data =
      ⟨td.data.rows.map (fun r => { r with frame := r.frame - (frame_range td.data).1 }),
        some 0⟩ := by
  cases wa with
  | some w => rw [runJob_some]
  | none => rw [runJob_none]; rw [runJob_some]

/-- C7: when no walkable area is supplied, the area used for the whole run
is the dataset's bounding box padded by exactly 1 on each of the four
sides, a warning naming the fallback polygon is emitted, and the
substitution is resolved before the transactional writing (the geometry
row written is the fallback's WKT). -/
theorem C7_fallback_area (pyHash : String → Int) (td : TrajectoryData) (st : Store) :
    let b := dfBounds td.data
    let fb : WalkableArea := ⟨box (b.xmin - 1) (b.ymin - 1) (b.xmax + 1) (b.ymax + 1)⟩
    let res := runJob pyHash td none st
    res.walkable_area = fb ∧
    res.logs = ["No walkable area provided. Use bounding box instead: " ++ to_wkt fb.polygon] ∧
    res.store.geometry = [(pyHash (to_wkt fb.polygon), to_wkt fb.polygon)] := by
  simp [runJob_none, runJob_some]

/-- C10: after any successful run the geometry table holds exactly one row
(the writer's insert-or-ignore is a no-op because the initializer inserted
the same hash/WKT pair, computed with the same per-process hash), and
every `frame_data` row's geometry_hash equals that row's hash. -/
theorem C10_single_geometry (pyHash : String → Int) (td : TrajectoryData)
    (wa : Option WalkableArea) (st : Store) :
    let res := runJob pyHash td wa st
    let wkt := to_wkt res.walkable_area.polygon
    res.error = none ∧
    res.store.geometry = [(pyHash wkt, wkt)] ∧
    ∀ p ∈ res.store.frame_data, p.2 = pyHash wkt := by
  cases wa with
  | some w =>
    rw [runJob_some]
    refine ⟨rfl, rfl, ?_⟩
    intro p hp
    simp only [List.mem_map] at hp
    obtain ⟨f, _, rfl⟩ := hp
    rfl
  | none =>
    rw [runJob_none]
    rw [runJob_some]
    refine ⟨rfl, rfl, ?_⟩
    intro p hp
    simp only [List.mem_map] at hp
    obtain ⟨f, _, rfl⟩ := hp
    rfl

/-- C1: for every successful run, `frame_data` contains exactly one row per
integer frame from the rebased minimum 0 to the rebased maximum
`max_frame - min_frame` inclusive — `max_frame - min_frame + 1` rows, each
frame exactly once — and every row carries the single written geometry
hash. -/
theorem C1_frame_data_rows (pyHash : String → Int) (td : TrajectoryData)
    (wa : Option WalkableArea) (st : Store) (hne : td.data.rows ≠ []) :
    let res := runJob pyHash td wa st
    let mn := (frame_range td.data).1
    let mx := (frame_range td.data).2
    let h := pyHash (to_wkt res.walkable_area.polygon)
    res.error = none ∧
    res.store.frame_data = (intRange 0 (mx - mn)).map (fun f => (f, h)) ∧
    (res.store.frame_data.length : Int) = mx - mn + 1 ∧
    (res.store.frame_data.map Prod.fst).Nodup ∧
    (∀ p ∈ res.store.frame_data, p.2 = h) := by
  cases wa with
  | some w => exact frame_data_core pyHash td w st hne
  | none =>
    rw [runJob_none]
    exact frame_data_core pyHash td _ st hne

/-- C1 witness at the concrete two-frame dataset. -/
theorem C1_frame_data_rows_witness :
    tdEx.data.rows ≠ [] ∧
    (let res := runJob hashEx tdEx (some waEx) emptyStore
     let mn := (frame_range tdEx.data).1
     let mx := (frame_range tdEx.data).2
     let h := hashEx (to_wkt res.walkable_area.polygon)
     res.error = none ∧
     res.store.frame_data = (intRange 0 (mx - mn)).map (fun f => (f, h)) ∧
     (res.store.frame_data.length : Int) = mx - mn + 1 ∧
     (res.store.frame_data.map Prod.fst).Nodup ∧
     (∀ p ∈ res.store.frame_data, p.2 = h)) :=
  ⟨by decide, C1_frame_data_rows hashEx tdEx (some waEx) emptyStore (by decide)⟩

/-- C5: for every non-empty dataset, a successful run stores exactly one
`trajectory_data` row per input row, each with `frame = original - min_frame`,
the minimum stored frame is 0, and `ori_x = ori_y = 0` in every row. -/
theorem C5_trajectory_rows (pyHash : String → Int) (td : TrajectoryData)
    (wa : Option WalkableArea) (st : Store) (hne : td.data.rows ≠ []) :
    let res := runJob pyHash td wa st
    let mn := (frame_range td.data).1
    res.error = none ∧
    res.store.trajectory_data =
      td.data.rows.map (fun r => DBRow.mk (r.frame - mn) r.id r.x r.y 0 0) ∧
    res.store.trajectory_data.length = td.data.rows.length ∧
    colMinI (res.store.trajectory_data.map DBRow.frame) = some 0 ∧
    (∀ r ∈ res.store.trajectory_data, r.ori_x = 0 ∧ r.ori_y = 0) := by
  cases wa with
  | some w => exact trajectory_core pyHash td w st hne
  | none =>
    rw [runJob_none]
    exact trajectory_core pyHash td _ st hne

/-- C5 witness at the concrete two-frame dataset. -/
theorem C5_trajectory_rows_witness :
    tdEx.data.rows ≠ [] ∧
    (let res := runJob hashEx tdEx (some waEx) emptyStore
     let mn := (frame_range tdEx.data).1
     res.error = none ∧
     res.store.trajectory_data =
       tdEx.data.rows.map (fun r => DBRow.mk (r.frame - mn) r.id r.x r.y 0 0) ∧
     res.store.trajectory_data.length = tdEx.data.rows.length ∧
     colMinI (res.store.trajectory_data.map DBRow.frame) = some 0 ∧
     (∀ r ∈ res.store.trajectory_data, r.ori_x = 0 ∧ r.ori_y = 0)) :=
  ⟨by decide, C5_trajectory_rows hashEx tdEx (some waEx) emptyStore (by decide)⟩

/-- C3: the geometry content hash is Python's builtin `hash` of the WKT
string, which is salted per process.  Two successive runs against the same
store whose per-process hash functions disagree on the WKT — which is what
hash randomization produces for two separate interpreter invocations —
leave TWO rows in `geometry` for the same WKT, refuting the claimed
cross-run stability of the hash (the second run writes without
re-initializing, per the claim's scenario). -/
theorem C3_hash_not_stable_across_runs (h1 h2 : String → Int) (td : TrajectoryData)
    (wa : WalkableArea) (st : Store)
    (hdiff : h1 (to_wkt wa.polygon) ≠ h2 (to_wkt wa.polygon)) :
    (write_sqlite_database h2 false (runJob h1 td (some wa) st).store td.data wa).store.geometry
      = [(h1 (to_wkt wa.polygon), to_wkt wa.polygon),
         (h2 (to_wkt wa.polygon), to_wkt wa.polygon)] := by
  rw [runJob_some]
  simp [write_sqlite_database, insertOrIgnoreGeometry, upsertMeta, hdiff]

/-- C3 witness: two concrete per-process hash functions that disagree on
the example WKT yield two geometry rows for the one WKT. -/
theorem C3_hash_not_stable_across_runs_witness :
    ((fun _ : String => (0 : Int)) (to_wkt waEx.polygon)
        ≠ (fun _ : String => (1 : Int)) (to_wkt waEx.polygon)) ∧
    (write_sqlite_database (fun _ => (1 : Int)) false
        (runJob (fun _ => (0 : Int)) tdEx (some waEx) emptyStore).store
        tdEx.data waEx).store.geometry
      = [((fun _ : String => (0 : Int)) (to_wkt waEx.polygon), to_wkt waEx.polygon),
         ((fun _ : String => (1 : Int)) (to_wkt waEx.polygon), to_wkt waEx.polygon)] :=
  ⟨by decide,
   C3_hash_not_stable_across_runs (fun _ => 0) (fun _ => 1) tdEx waEx emptyStore (by decide)⟩

/-- C8: when both a (truthy) geometry string and a geometry file are
supplied, the job fails with the mutual-exclusion error before any I/O
occurs: the result carries the error and an empty I/O trace (nothing
globbed, read, loaded or written). -/
theorem C8_mutually_exclusive_geometry (glob : String → List String)
    (readLine : String → String) (file_pattern : String)
    (output_file geometry geometry_file : Option String)
    (hg : truthyStr geometry = true) (hf : geometry_file.isSome = true) :
    convert_files glob readLine file_pattern output_file geometry geometry_file =
      (Except.error "Cannot use both --geometry and --geometry_file at the same time.", []) := by
  simp [convert_files, validate_geometry_options, hg, hf]

/-- C8 witness at concrete options. -/
theorem C8_mutually_exclusive_geometry_witness :
    truthyStr (some "POLYGON ((0 0, 1 0, 1 1, 0 0))") = true ∧
    (some "geo.wkt" : Option String).isSome = true ∧
    convert_files (fun _ => ["a.txt"]) (fun _ => "") "*.txt" none
        (some "POLYGON ((0 0, 1 0, 1 1, 0 0))") (some "geo.wkt") =
      (Except.error "Cannot use both --geometry and --geometry_file at the same time.", []) :=
  ⟨by decide, by decide,
   C8_mutually_exclusive_geometry (fun _ => ["a.txt"]) (fun _ => "") "*.txt" none
     (some "POLYGON ((0 0, 1 0, 1 1, 0 0))") (some "geo.wkt") (by decide) (by decide)⟩

/-- C9: the code rejects every multi-file batch.  With a pattern matching
two files and NO output target supplied, `convert_files` still raises the
BadParameter error and converts nothing (the only I/O performed is the
glob), contradicting the claim that a multi-file pattern without an output
target converts every matched file — `_validate_output_file` never
inspects the output option. -/
theorem C9_multi_file_batch_rejected :
    convert_files (fun _ => ["a.txt", "b.txt"]) (fun _ => "") "*.txt" none none none =
      (Except.error "Cannot use both --output-file if the file pattern matches multiple files",
       [Effect.globPattern "*.txt"]) := by
  rfl

end Jps
